import Mathlib

/-!
Verification of the contact-submission pipeline of the repository
(server-side handler in `supabase/functions/submit-contact/index.ts`).

The handler is embedded shallowly:
  * JS strings become Lean `String` (trim / toLower / length as in core Lean);
  * the in-memory `Map`-based rate-limit store becomes a function
    `String → Option RateRecord` with functional update;
  * `Date.now()` becomes an explicit `now : Nat` parameter (milliseconds);
  * the body parsed from JSON becomes `Option ContactBody` with `Option String`
    fields (a `none` body models a JSON parse failure, which the source
    catches in its catch-all; `none` fields model absent properties);
  * the fallible database insert becomes a boolean oracle `insertOk`;
  * each `Response` becomes an `HttpResponse` record (status, body shape,
    header list), and the row handed to the insert call is recorded in
    `insertAttempt` so that "no persistence occurs" is expressible.
-/

namespace SubmitContact

/-- Whitespace for the purposes of JS `String.prototype.trim`, restricted to
the ASCII whitespace characters that can actually reach the handler. -/
def isSpaceChar (c : Char) : Bool :=
  c == ' ' || c == '\t' || c == '\n' || c == '\r'

/-- JS `s.trim()`: strip leading and trailing whitespace. -/
def jsTrim (s : String) : String :=
  ⟨((s.data.dropWhile isSpaceChar).reverse.dropWhile isSpaceChar).reverse⟩

/-- JS `s.toLowerCase()` on the ASCII range: lower-case each character. -/
def jsToLower (s : String) : String :=
  ⟨s.data.map Char.toLower⟩

/-- JS `s.length`: the number of characters of the string. -/
def jsLength (s : String) : Nat :=
  s.data.length

/-- CORS headers attached to every response (`corsHeaders` in the source). -/
def corsHeaders : List (String × String) :=
  [("Access-Control-Allow-Origin", "*"),
   ("Access-Control-Allow-Headers",
    "authorization, x-client-info, apikey, content-type, x-supabase-client-platform, x-supabase-client-platform-version, x-supabase-client-runtime, x-supabase-client-runtime-version")]

/-- Headers of every JSON response: the CORS headers plus `Content-Type`. -/
def jsonHeaders : List (String × String) :=
  corsHeaders ++ [("Content-Type", "application/json")]

/-- `RATE_LIMIT_WINDOW_MS = 60 * 60 * 1000` (one hour), from the source. -/
def RATE_LIMIT_WINDOW_MS : Nat := 60 * 60 * 1000

/-- `MAX_SUBMISSIONS_PER_WINDOW = 5`, from the source. -/
def MAX_SUBMISSIONS_PER_WINDOW : Nat := 5

/-- One entry of the rate-limit store: `{ count, windowStart }`. -/
structure RateRecord where
  count : Nat
  windowStart : Nat
deriving Repr, DecidableEq

/-- The in-memory rate-limit store (`Map<string, RateRecord>` in the source),
modelled as a function from keys to optional records. -/
abbrev RateLimitStore := String → Option RateRecord

/-- `rateLimitStore.set(ip, r)`: functional update of the store. -/
def storeSet (s : RateLimitStore) (ip : String) (r : RateRecord) : RateLimitStore :=
  fun k => if k = ip then some r else s k

/-- The store at cold start: no keys present. -/
def emptyStore : RateLimitStore := fun _ => none

/-- `isRateLimited(ip)` from the source, with `Date.now()` and the mutable
store passed explicitly; returns the boolean together with the updated store.
Source logic: missing record or `now - windowStart > RATE_LIMIT_WINDOW_MS`
starts a fresh window of count 1 and is not limited; otherwise a count at the
maximum is limited (store untouched); otherwise the count is incremented. -/
def isRateLimited (now : Nat) (ip : String) (store : RateLimitStore) :
    Bool × RateLimitStore :=
  match store ip with
  | none => (false, storeSet store ip ⟨1, now⟩)
  | some record =>
    if RATE_LIMIT_WINDOW_MS < now - record.windowStart then
      (false, storeSet store ip ⟨1, now⟩)
    else if MAX_SUBMISSIONS_PER_WINDOW ≤ record.count then
      (true, store)
    else
      (false, storeSet store ip ⟨record.count + 1, record.windowStart⟩)

/-- Result shape `{ valid: boolean; error?: string }` of the validators. -/
structure ValidationResult where
  valid : Bool
  error : Option String
deriving Repr, DecidableEq

/-- `validateName` from the source: required, trimmed length in [2,100].
The argument is `Option String`: `none` models a missing (`undefined`) field,
for which `name?.trim()` is `undefined` and falsy. -/
def validateName (name : Option String) : ValidationResult :=
  match name with
  | none => ⟨false, some "Name is required"⟩
  | some n =>
    let trimmed := jsTrim n
    if jsLength trimmed = 0 then ⟨false, some "Name is required"⟩
    else if jsLength trimmed < 2 then ⟨false, some "Name must be at least 2 characters"⟩
    else if 100 < jsLength trimmed then ⟨false, some "Name must be less than 100 characters"⟩
    else ⟨true, none⟩

/-- Character class `[A-Za-z0-9._%+-]` of the local part of the email regex. -/
def isLocalChar (c : Char) : Bool :=
  c.isAlpha || c.isDigit || c == '.' || c == '_' || c == '%' || c == '+' || c == '-'

/-- Character class `[A-Za-z0-9.-]` of the domain part of the email regex. -/
def isDomainChar (c : Char) : Bool :=
  c.isAlpha || c.isDigit || c == '.' || c == '-'

/-- Split a character list at the first occurrence of `c`:
`splitFirst c s = some (l, r)` iff `s = l ++ c :: r` with `c ∉ l`. -/
def splitFirst (c : Char) : List Char → Option (List Char × List Char)
  | [] => none
  | x :: xs =>
    if x = c then some ([], xs)
    else
      match splitFirst c xs with
      | none => none
      | some (l, r) => some (x :: l, r)

/-- Split a character list at the last occurrence of `c`:
`splitLast c s = some (l, r)` iff `s = l ++ c :: r` with `c ∉ r`. -/
def splitLast (c : Char) (s : List Char) : Option (List Char × List Char) :=
  match splitFirst c s.reverse with
  | none => none
  | some (l, r) => some (r.reverse, l.reverse)

/-- Matcher for the source's email regex
`/^[A-Za-z0-9._%+-]+@[A-Za-z0-9.-]+\.[A-Za-z]{2,}$/`.
Because `@` occurs in no character class of the pattern, a match must split at
the unique `@`; because `.` is not a letter, the `\.` of the pattern must be
the last dot after the `@`.  So the anchored regex accepts exactly the strings
of the form `local ++ "@" ++ domain ++ "." ++ tld` with `local` nonempty over
`[A-Za-z0-9._%+-]`, `domain` nonempty over `[A-Za-z0-9.-]`, and `tld` two or
more letters (proved below as `emailRegexMatch_iff_emailShape`). -/
def emailRegexMatch (s : String) : Bool :=
  match splitFirst '@' s.data with
  | none => false
  | some (lp, rest) =>
    match splitLast '.' rest with
    | none => false
    | some (dom, tld) =>
      !lp.isEmpty && lp.all isLocalChar &&
      (!dom.isEmpty && dom.all isDomainChar) &&
      (decide (2 ≤ tld.length) && tld.all Char.isAlpha)

/-- `validateEmail` from the source: required, trimmed+lowercased length ≤ 255,
regex match. -/
def validateEmail (email : Option String) : ValidationResult :=
  match email with
  | none => ⟨false, some "Email is required"⟩
  | some e =>
    let trimmed := jsToLower (jsTrim e)
    if jsLength trimmed = 0 then ⟨false, some "Email is required"⟩
    else if 255 < jsLength trimmed then ⟨false, some "Email must be less than 255 characters"⟩
    else if !emailRegexMatch trimmed then ⟨false, some "Please enter a valid email address"⟩
    else ⟨true, none⟩

/-- `validateMessage` from the source: required, trimmed length in [10,5000]. -/
def validateMessage (message : Option String) : ValidationResult :=
  match message with
  | none => ⟨false, some "Message is required"⟩
  | some m =>
    let trimmed := jsTrim m
    if jsLength trimmed = 0 then ⟨false, some "Message is required"⟩
    else if jsLength trimmed < 10 then ⟨false, some "Message must be at least 10 characters"⟩
    else if 5000 < jsLength trimmed then ⟨false, some "Message must be less than 5000 characters"⟩
    else ⟨true, none⟩

/-- The fields extracted from the parsed JSON body; `none` models an absent
property. -/
structure ContactBody where
  name : Option String
  email : Option String
  message : Option String
deriving Repr, DecidableEq

/-- An incoming request: method, the two forwarding headers consulted for the
client IP (absent header = `none`), and the body (`none` = the body is not
parseable as JSON, so `req.json()` throws). -/
structure Request where
  method : String
  xForwardedFor : Option String
  cfConnectingIp : Option String
  body : Option ContactBody
deriving Repr, DecidableEq

/-- First entry of a comma-separated forwarded-for value, trimmed
(`s.split(",")[0]?.trim()`): the characters before the first comma. -/
def firstForwarded (s : String) : String :=
  jsTrim ⟨s.data.takeWhile (fun c => c ≠ ',')⟩

/-- Client IP derivation from the source:
`req.headers.get("x-forwarded-for")?.split(",")[0]?.trim() ||
 req.headers.get("cf-connecting-ip") || "unknown"`,
where `||` falls through on the empty string (falsy) and on a missing header. -/
def clientIP (xff cfip : Option String) : String :=
  let x := match xff with
    | some s => firstForwarded s
    | none => ""
  if x ≠ "" then x
  else
    let c := cfip.getD ""
    if c ≠ "" then c else "unknown"

/-- Shape of a response body: the preflight plain-text body, a JSON
`{ error }`, or a JSON `{ success: true, message }`. -/
inductive ResponseBody where
  | text (s : String)
  | err (msg : String)
  | success (msg : String)
deriving Repr, DecidableEq

/-- A response: status code, body shape, headers. -/
structure HttpResponse where
  status : Nat
  body : ResponseBody
  headers : List (String × String)
deriving Repr, DecidableEq

/-- The row handed to the database insert call. -/
structure InsertRow where
  name : String
  email : String
  message : String
deriving Repr, DecidableEq

/-- Outcome of one handler invocation: the response, the rate-limit store
afterwards, and the row passed to the insert call if one was attempted. -/
structure HandlerResult where
  response : HttpResponse
  store : RateLimitStore
  insertAttempt : Option InsertRow

/-- Body parsing, validation and insert, from the source (lines 107-163 plus
the catch-all): an unparseable body throws and the catch-all answers 500; then
name, email, message are validated in order, the first failure answering 400
with that validator's message; then the trimmed/normalized row is inserted,
answering 500 on insert error and 200 on success.  None of this touches the
rate-limit store, so it is factored out of `handle`. -/
def processBody (body : Option ContactBody) (insertOk : Bool) :
    HttpResponse × Option InsertRow :=
  match body with
  | none =>
    (⟨500, .err "An unexpected error occurred. Please try again.", jsonHeaders⟩, none)
  | some b =>
    let nameValidation := validateName b.name
    if !nameValidation.valid then
      (⟨400, .err (nameValidation.error.getD ""), jsonHeaders⟩, none)
    else
      let emailValidation := validateEmail b.email
      if !emailValidation.valid then
        (⟨400, .err (emailValidation.error.getD ""), jsonHeaders⟩, none)
      else
        let messageValidation := validateMessage b.message
        if !messageValidation.valid then
          (⟨400, .err (messageValidation.error.getD ""), jsonHeaders⟩, none)
        else
          let row : InsertRow :=
            ⟨jsTrim (b.name.getD ""), jsToLower (jsTrim (b.email.getD "")),
             jsTrim (b.message.getD "")⟩
          if insertOk then
            (⟨200, .success "Message sent successfully", jsonHeaders⟩, some row)
          else
            (⟨500, .err "Failed to submit message. Please try again.", jsonHeaders⟩, some row)

/-- The `Deno.serve` handler from the source: answer OPTIONS preflight with a
plain `"ok"`; reject non-POST with 405; derive the client IP; answer 429 when
rate-limited (before the body is even parsed); otherwise parse, validate and
insert via `processBody`. -/
def handle (req : Request) (now : Nat) (store : RateLimitStore) (insertOk : Bool) :
    HandlerResult :=
  if req.method = "OPTIONS" then
    ⟨⟨200, .text "ok", corsHeaders⟩, store, none⟩
  else if req.method ≠ "POST" then
    ⟨⟨405, .err "Method not allowed", jsonHeaders⟩, store, none⟩
  else
    let res := isRateLimited now (clientIP req.xForwardedFor req.cfConnectingIp) store
    if res.1 then
      ⟨⟨429, .err "Too many submissions. Please try again later.", jsonHeaders⟩, res.2, none⟩
    else
      let pr := processBody req.body insertOk
      ⟨pr.1, res.2, pr.2⟩

/-- The possible name-validation error messages. -/
def nameErrors : List String :=
  ["Name is required", "Name must be at least 2 characters",
   "Name must be less than 100 characters"]

/-- The possible email-validation error messages. -/
def emailErrors : List String :=
  ["Email is required", "Email must be less than 255 characters",
   "Please enter a valid email address"]

/-- The possible message-validation error messages. -/
def messageErrors : List String :=
  ["Message is required", "Message must be at least 10 characters",
   "Message must be less than 5000 characters"]

example : emailRegexMatch "a@b.com" = true := by decide

example : emailRegexMatch "a@b.c" = false := by decide

example : emailRegexMatch "a@b" = false := by decide

example : emailRegexMatch "a@@b.com" = false := by decide

example : clientIP (some " 1.2.3.4 , 5.6.7.8") none = "1.2.3.4" := by decide

example : clientIP none none = "unknown" := by decide

example : clientIP (some "") (some "7.7.7.7") = "7.7.7.7" := by decide

example : validateEmail (some "  A@B.COM ") = ⟨true, none⟩ := by decide

example : validateName (some " A ") =
    ⟨false, some "Name must be at least 2 characters"⟩ := by decide

/-! ### Rate limiter: case analysis lemmas -/

theorem storeSet_self (s : RateLimitStore) (ip : String) (r : RateRecord) :
    storeSet s ip r ip = some r := by
  simp [storeSet]

theorem isRateLimited_of_none {store : RateLimitStore} {ip : String} (now : Nat)
    (h : store ip = none) :
    isRateLimited now ip store = (false, storeSet store ip ⟨1, now⟩) := by
  simp [isRateLimited, h]

theorem isRateLimited_of_expired {store : RateLimitStore} {ip : String} {c ws now : Nat}
    (h : store ip = some ⟨c, ws⟩) (hw : ws + RATE_LIMIT_WINDOW_MS < now) :
    isRateLimited now ip store = (false, storeSet store ip ⟨1, now⟩) := by
  have : RATE_LIMIT_WINDOW_MS < now - ws := by omega
  simp [isRateLimited, h, this]

theorem isRateLimited_of_within_lt {store : RateLimitStore} {ip : String} {c ws now : Nat}
    (h : store ip = some ⟨c, ws⟩) (hw : now ≤ ws + RATE_LIMIT_WINDOW_MS)
    (hc : c < MAX_SUBMISSIONS_PER_WINDOW) :
    isRateLimited now ip store = (false, storeSet store ip ⟨c + 1, ws⟩) := by
  have h1 : ¬ RATE_LIMIT_WINDOW_MS < now - ws := by omega
  have h2 : ¬ MAX_SUBMISSIONS_PER_WINDOW ≤ c := by omega
  simp [isRateLimited, h, h1, h2]

theorem isRateLimited_of_within_ge {store : RateLimitStore} {ip : String} {c ws now : Nat}
    (h : store ip = some ⟨c, ws⟩) (hw : now ≤ ws + RATE_LIMIT_WINDOW_MS)
    (hc : MAX_SUBMISSIONS_PER_WINDOW ≤ c) :
    isRateLimited now ip store = (true, store) := by
  have h1 : ¬ RATE_LIMIT_WINDOW_MS < now - ws := by omega
  simp [isRateLimited, h, h1, hc]

/-! ### Handler: unfolding lemmas -/

theorem handle_POST (xff cfip : Option String) (b : Option ContactBody)
    (now : Nat) (store : RateLimitStore) (insertOk : Bool) :
    handle ⟨"POST", xff, cfip, b⟩ now store insertOk =
      if (isRateLimited now (clientIP xff cfip) store).1 then
        ⟨⟨429, .err "Too many submissions. Please try again later.", jsonHeaders⟩,
         (isRateLimited now (clientIP xff cfip) store).2, none⟩
      else
        ⟨(processBody b insertOk).1, (isRateLimited now (clientIP xff cfip) store).2,
         (processBody b insertOk).2⟩ := by
  rfl

theorem handle_POST_limited (xff cfip : Option String) (b : Option ContactBody)
    (now : Nat) (store : RateLimitStore) (insertOk : Bool)
    (h : (isRateLimited now (clientIP xff cfip) store).1 = true) :
    handle ⟨"POST", xff, cfip, b⟩ now store insertOk =
      ⟨⟨429, .err "Too many submissions. Please try again later.", jsonHeaders⟩,
       (isRateLimited now (clientIP xff cfip) store).2, none⟩ := by
  rw [handle_POST, if_pos h]

theorem handle_POST_notLimited (xff cfip : Option String) (b : Option ContactBody)
    (now : Nat) (store : RateLimitStore) (insertOk : Bool)
    (h : (isRateLimited now (clientIP xff cfip) store).1 = false) :
    handle ⟨"POST", xff, cfip, b⟩ now store insertOk =
      ⟨(processBody b insertOk).1, (isRateLimited now (clientIP xff cfip) store).2,
       (processBody b insertOk).2⟩ := by
  rw [handle_POST, if_neg (by simp [h])]

/-! ### Validators: sufficient conditions and error inventories -/

theorem validateName_valid_of {n : String}
    (h1 : 2 ≤ jsLength (jsTrim n)) (h2 : jsLength (jsTrim n) ≤ 100) :
    validateName (some n) = ⟨true, none⟩ := by
  have e0 : ¬ jsLength (jsTrim n) = 0 := by omega
  have e1 : ¬ jsLength (jsTrim n) < 2 := by omega
  have e2 : ¬ 100 < jsLength (jsTrim n) := by omega
  simp [validateName, e0, e1, e2]

theorem validateMessage_valid_of {m : String}
    (h1 : 10 ≤ jsLength (jsTrim m)) (h2 : jsLength (jsTrim m) ≤ 5000) :
    validateMessage (some m) = ⟨true, none⟩ := by
  have e0 : ¬ jsLength (jsTrim m) = 0 := by omega
  have e1 : ¬ jsLength (jsTrim m) < 10 := by omega
  have e2 : ¬ 5000 < jsLength (jsTrim m) := by omega
  simp [validateMessage, e0, e1, e2]

theorem emailRegexMatch_ne_empty {s : String} (h : emailRegexMatch s = true) :
    jsLength s ≠ 0 := by
  intro hlen
  have hd : s.data = [] := List.length_eq_zero.mp hlen
  rw [emailRegexMatch, hd] at h
  simp [splitFirst] at h

theorem validateEmail_valid_of {e : String}
    (h1 : emailRegexMatch (jsToLower (jsTrim e)) = true)
    (h2 : jsLength (jsToLower (jsTrim e)) ≤ 255) :
    validateEmail (some e) = ⟨true, none⟩ := by
  have e0 : ¬ jsLength (jsToLower (jsTrim e)) = 0 := emailRegexMatch_ne_empty h1
  have e2 : ¬ 255 < jsLength (jsToLower (jsTrim e)) := by omega
  simp [validateEmail, e0, e2, h1]

theorem validateName_cases (nm : Option String) :
    validateName nm = ⟨true, none⟩ ∨
      ∃ s, validateName nm = ⟨false, some s⟩ ∧ s ∈ nameErrors := by
  match nm with
  | none => exact Or.inr ⟨"Name is required", rfl, by simp [nameErrors]⟩
  | some n =>
    simp only [validateName]
    split
    · exact Or.inr ⟨"Name is required", rfl, by simp [nameErrors]⟩
    · split
      · exact Or.inr ⟨"Name must be at least 2 characters", rfl, by simp [nameErrors]⟩
      · split
        · exact Or.inr ⟨"Name must be less than 100 characters", rfl, by simp [nameErrors]⟩
        · exact Or.inl rfl

theorem validateEmail_cases (em : Option String) :
    validateEmail em = ⟨true, none⟩ ∨
      ∃ s, validateEmail em = ⟨false, some s⟩ ∧ s ∈ emailErrors := by
  match em with
  | none => exact Or.inr ⟨"Email is required", rfl, by simp [emailErrors]⟩
  | some e =>
    simp only [validateEmail]
    split
    · exact Or.inr ⟨"Email is required", rfl, by simp [emailErrors]⟩
    · split
      · exact Or.inr ⟨"Email must be less than 255 characters", rfl, by simp [emailErrors]⟩
      · split
        · exact Or.inr ⟨"Please enter a valid email address", rfl, by simp [emailErrors]⟩
        · exact Or.inl rfl

theorem validateMessage_cases (ms : Option String) :
    validateMessage ms = ⟨true, none⟩ ∨
      ∃ s, validateMessage ms = ⟨false, some s⟩ ∧ s ∈ messageErrors := by
  match ms with
  | none => exact Or.inr ⟨"Message is required", rfl, by simp [messageErrors]⟩
  | some m =>
    simp only [validateMessage]
    split
    · exact Or.inr ⟨"Message is required", rfl, by simp [messageErrors]⟩
    · split
      · exact Or.inr ⟨"Message must be at least 10 characters", rfl, by simp [messageErrors]⟩
      · split
        · exact Or.inr ⟨"Message must be less than 5000 characters", rfl, by simp [messageErrors]⟩
        · exact Or.inl rfl

/-! ### The email regex: characterization of a match -/

theorem splitFirst_eq_some {c : Char} {s : List Char} :
    ∀ {l r : List Char}, splitFirst c s = some (l, r) ↔ s = l ++ c :: r ∧ c ∉ l := by
  induction s with
  | nil =>
    intro l r
    constructor
    · intro h; exact absurd h (by simp [splitFirst])
    · rintro ⟨h, -⟩; exact absurd h (by simp)
  | cons x xs ih =>
    intro l r
    rw [splitFirst]
    by_cases hx : x = c
    · rw [if_pos hx]
      constructor
      · intro h
        simp only [Option.some.injEq, Prod.mk.injEq] at h
        obtain ⟨hl, hr⟩ := h
        rw [← hl, ← hr]
        simp [hx]
      · rintro ⟨h, hc⟩
        cases l with
        | nil =>
          simp only [List.nil_append, List.cons.injEq] at h
          simp [h.2]
        | cons y l' =>
          simp only [List.cons_append, List.cons.injEq] at h
          have hcy : c = y := by rw [← hx]; exact h.1
          subst hcy
          exact absurd (List.mem_cons_self c l') hc
    · rw [if_neg hx]
      constructor
      · intro h
        cases hf : splitFirst c xs with
        | none => rw [hf] at h; exact absurd h (by simp)
        | some p =>
          obtain ⟨l₀, r₀⟩ := p
          rw [hf] at h
          simp only [Option.some.injEq, Prod.mk.injEq] at h
          obtain ⟨hl, hr⟩ := h
          obtain ⟨hxs, hcl⟩ := ih.mp hf
          rw [← hl, ← hr]
          refine ⟨by simp [hxs], ?_⟩
          intro hmem
          rcases List.mem_cons.mp hmem with h1 | h1
          · exact hx h1.symm
          · exact hcl h1
      · rintro ⟨h, hc⟩
        cases l with
        | nil =>
          simp only [List.nil_append, List.cons.injEq] at h
          exact absurd h.1 hx
        | cons y l' =>
          simp only [List.cons_append, List.cons.injEq] at h
          obtain ⟨hy, hxs⟩ := h
          subst hy
          have hcl' : c ∉ l' := fun hm => hc (List.mem_cons_of_mem _ hm)
          rw [ih.mpr ⟨hxs, hcl'⟩]

theorem splitLast_eq_some {c : Char} {s l r : List Char} :
    splitLast c s = some (l, r) ↔ s = l ++ c :: r ∧ c ∉ r := by
  rw [splitLast]
  constructor
  · intro h
    cases hf : splitFirst c s.reverse with
    | none => rw [hf] at h; exact absurd h (by simp)
    | some p =>
      obtain ⟨a, b⟩ := p
      rw [hf] at h
      simp only [Option.some.injEq, Prod.mk.injEq] at h
      obtain ⟨hl, hr⟩ := h
      obtain ⟨hs, hc⟩ := splitFirst_eq_some.mp hf
      subst hl hr
      constructor
      · have := congrArg List.reverse hs
        simpa [List.reverse_append] using this
      · simpa using hc
  · rintro ⟨rfl, hc⟩
    have hf : splitFirst c (l ++ c :: r).reverse = some (r.reverse, l.reverse) := by
      apply splitFirst_eq_some.mpr
      refine ⟨by simp [List.reverse_append], by simpa using hc⟩
    rw [hf]
    simp

/-- The email shape stated in the spec's words: `local-part@domain.tld`, with
local-part one-or-more characters of `[A-Za-z0-9._%+-]`, domain one-or-more of
`[A-Za-z0-9.-]`, and a final label of 2 or more letters. -/
def emailShape (t : String) : Prop :=
  ∃ lp dom tld : List Char,
    t.data = lp ++ '@' :: (dom ++ '.' :: tld) ∧
    lp ≠ [] ∧ lp.all isLocalChar = true ∧
    dom ≠ [] ∧ dom.all isDomainChar = true ∧
    2 ≤ tld.length ∧ tld.all Char.isAlpha = true

theorem emailRegexMatch_iff_emailShape (t : String) :
    emailRegexMatch t = true ↔ emailShape t := by
  constructor
  · intro h
    rw [emailRegexMatch] at h
    cases hf : splitFirst '@' t.data with
    | none => simp [hf] at h
    | some p =>
      obtain ⟨lp, rest⟩ := p
      simp only [hf] at h
      cases hl : splitLast '.' rest with
      | none => simp [hl] at h
      | some q =>
        obtain ⟨dom, tld⟩ := q
        simp only [hl] at h
        simp only [Bool.and_eq_true, Bool.not_eq_true', List.isEmpty_eq_false,
          decide_eq_true_eq] at h
        obtain ⟨⟨⟨hlp, hlpc⟩, hdom, hdomc⟩, htld, htldc⟩ := h
        obtain ⟨ht, -⟩ := splitFirst_eq_some.mp hf
        obtain ⟨hrest, -⟩ := splitLast_eq_some.mp hl
        exact ⟨lp, dom, tld, by rw [ht, hrest], hlp, hlpc, hdom, hdomc, htld, htldc⟩
  · rintro ⟨lp, dom, tld, ht, hlp, hlpc, hdom, hdomc, htld, htldc⟩
    have hat : '@' ∉ lp := by
      intro hm
      have := List.all_eq_true.mp hlpc _ hm
      simp [isLocalChar] at this
    have hdot : '.' ∉ tld := by
      intro hm
      have := List.all_eq_true.mp htldc _ hm
      simp at this
    have hf : splitFirst '@' t.data = some (lp, dom ++ '.' :: tld) :=
      splitFirst_eq_some.mpr ⟨ht, hat⟩
    have hl : splitLast '.' (dom ++ '.' :: tld) = some (dom, tld) :=
      splitLast_eq_some.mpr ⟨rfl, hdot⟩
    rw [emailRegexMatch]
    simp only [hf, hl]
    simp [hlp, hdom, hlpc, hdomc, htld, htldc]

/-! ### Body processing: outcome lemmas -/

theorem processBody_success {b : ContactBody}
    (hn : (validateName b.name).valid = true)
    (he : (validateEmail b.email).valid = true)
    (hm : (validateMessage b.message).valid = true) :
    processBody (some b) true =
      (⟨200, .success "Message sent successfully", jsonHeaders⟩,
       some ⟨jsTrim (b.name.getD ""), jsToLower (jsTrim (b.email.getD "")),
             jsTrim (b.message.getD "")⟩) := by
  simp [processBody, hn, he, hm]

theorem processBody_nameFail {b : ContactBody} {s : String} (insertOk : Bool)
    (hn : (validateName b.name).valid = false)
    (hs : (validateName b.name).error = some s) :
    processBody (some b) insertOk = (⟨400, .err s, jsonHeaders⟩, none) := by
  simp [processBody, hn, hs]

theorem processBody_emailFail {b : ContactBody} {s : String} (insertOk : Bool)
    (hn : (validateName b.name).valid = true)
    (he : (validateEmail b.email).valid = false)
    (hs : (validateEmail b.email).error = some s) :
    processBody (some b) insertOk = (⟨400, .err s, jsonHeaders⟩, none) := by
  simp [processBody, hn, he, hs]

theorem processBody_messageFail {b : ContactBody} {s : String} (insertOk : Bool)
    (hn : (validateName b.name).valid = true)
    (he : (validateEmail b.email).valid = true)
    (hm : (validateMessage b.message).valid = false)
    (hs : (validateMessage b.message).error = some s) :
    processBody (some b) insertOk = (⟨400, .err s, jsonHeaders⟩, none) := by
  simp [processBody, hn, he, hm, hs]

theorem processBody_status_ne_429 (b : Option ContactBody) (insertOk : Bool) :
    (processBody b insertOk).1.status ≠ 429 := by
  match b with
  | none => simp [processBody]
  | some b =>
    simp only [processBody]
    split
    · simp
    · split
      · simp
      · split
        · simp
        · split
          · simp
          · simp

theorem handle_POST_store (xff cfip : Option String) (b : Option ContactBody)
    (now : Nat) (store : RateLimitStore) (insertOk : Bool) :
    (handle ⟨"POST", xff, cfip, b⟩ now store insertOk).store =
      (isRateLimited now (clientIP xff cfip) store).2 := by
  rw [handle_POST]
  split <;> rfl

theorem processBody_headers (b : Option ContactBody) (insertOk : Bool) :
    (processBody b insertOk).1.headers = jsonHeaders := by
  match b with
  | none => simp [processBody]
  | some b =>
    simp only [processBody]
    split
    · simp
    · split
      · simp
      · split
        · simp
        · split
          · simp
          · simp

theorem validateName_invalid_of {n : String}
    (h : jsLength (jsTrim n) < 2 ∨ 100 < jsLength (jsTrim n)) :
    (validateName (some n)).valid = false := by
  rw [validateName]
  rcases h with h | h
  · by_cases h0 : jsLength (jsTrim n) = 0
    · simp [h0]
    · simp [h0, h]
  · have h0 : ¬ jsLength (jsTrim n) = 0 := by omega
    have h1 : ¬ jsLength (jsTrim n) < 2 := by omega
    simp [h0, h1, h]

/-- Whether a response body has one of the two structured JSON shapes the
spec describes (an `{ error }` object or a `{ success, message }` object). -/
def isStructured : ResponseBody → Bool
  | .err _ => true
  | .success _ => true
  | .text _ => false

/-- The response shape asserted by the spec: an `{ error }` body with status
400, 405, 429 or 500, or a `{ success, message }` body with status 200. -/
def claimedShape (r : HttpResponse) : Prop :=
  ((∃ s, r.body = ResponseBody.err s) ∧
    (r.status = 400 ∨ r.status = 405 ∨ r.status = 429 ∨ r.status = 500)) ∨
  ((∃ s, r.body = ResponseBody.success s) ∧ r.status = 200)

theorem processBody_claimedShape (b : Option ContactBody) (insertOk : Bool) :
    claimedShape (processBody b insertOk).1 := by
  match b with
  | none => exact Or.inl ⟨⟨_, rfl⟩, by simp [processBody]⟩
  | some b =>
    simp only [processBody]
    split
    · exact Or.inl ⟨⟨_, rfl⟩, by simp⟩
    · split
      · exact Or.inl ⟨⟨_, rfl⟩, by simp⟩
      · split
        · exact Or.inl ⟨⟨_, rfl⟩, by simp⟩
        · split
          · exact Or.inr ⟨⟨_, rfl⟩, by simp⟩
          · exact Or.inl ⟨⟨_, rfl⟩, by simp⟩

theorem mem_jsonHeaders_of_mem_cors {h : String × String} (hm : h ∈ corsHeaders) :
    h ∈ jsonHeaders := by
  rw [jsonHeaders]
  exact List.mem_append_left _ hm

/-! ### The claims -/

/-- C1: a POST that is not rate-limited, with trimmed name length in [2,100],
trimmed+lowercased email matching the pattern and at most 255 characters, and
trimmed message length in [10,5000], whose insert succeeds, is answered with
status 200 and body `{success: true, message: "Message sent successfully"}`,
and the normalized record (trimmed name, trimmed+lowercased email, trimmed
message) is handed to the insert. -/
theorem C1_valid_submission_persisted
    (xff cfip : Option String) (n e m : String) (now : Nat) (store : RateLimitStore)
    (hlim : (isRateLimited now (clientIP xff cfip) store).1 = false)
    (hn1 : 2 ≤ jsLength (jsTrim n)) (hn2 : jsLength (jsTrim n) ≤ 100)
    (he1 : emailRegexMatch (jsToLower (jsTrim e)) = true)
    (he2 : jsLength (jsToLower (jsTrim e)) ≤ 255)
    (hm1 : 10 ≤ jsLength (jsTrim m)) (hm2 : jsLength (jsTrim m) ≤ 5000) :
    (handle ⟨"POST", xff, cfip, some ⟨some n, some e, some m⟩⟩ now store true).response =
        ⟨200, .success "Message sent successfully", jsonHeaders⟩ ∧
      (handle ⟨"POST", xff, cfip, some ⟨some n, some e, some m⟩⟩ now store true).insertAttempt =
        some ⟨jsTrim n, jsToLower (jsTrim e), jsTrim m⟩ := by
  have hb := processBody_success (b := ⟨some n, some e, some m⟩)
    (by rw [show (⟨some n, some e, some m⟩ : ContactBody).name = some n from rfl,
          validateName_valid_of hn1 hn2])
    (by rw [show (⟨some n, some e, some m⟩ : ContactBody).email = some e from rfl,
          validateEmail_valid_of he1 he2])
    (by rw [show (⟨some n, some e, some m⟩ : ContactBody).message = some m from rfl,
          validateMessage_valid_of hm1 hm2])
  rw [handle_POST_notLimited _ _ _ _ _ _ hlim, hb]
  exact ⟨rfl, rfl⟩

theorem C1_witness :
    (handle ⟨"POST", some "1.2.3.4", none,
        some ⟨some "Al", some "A@B.COM", some "Hello there!"⟩⟩ 0 emptyStore true).response =
      ⟨200, .success "Message sent successfully", jsonHeaders⟩ ∧
    (handle ⟨"POST", some "1.2.3.4", none,
        some ⟨some "Al", some "A@B.COM", some "Hello there!"⟩⟩ 0 emptyStore true).insertAttempt =
      some ⟨"Al", "a@b.com", "Hello there!"⟩ := by
  have h := C1_valid_submission_persisted (some "1.2.3.4") none "Al" "A@B.COM" "Hello there!"
    0 emptyStore (by decide) (by decide) (by decide) (by decide) (by decide) (by decide)
    (by decide)
  exact ⟨h.1, h.2.trans (by decide)⟩

/-- C6: with a record `{count, windowStart}` stored for an address, the
window is reset exactly when the current time strictly exceeds
`windowStart + 1 hour`: past that instant the call is accepted and the record
becomes a fresh count of 1 with the current time as window start; at or
before that instant the old window still governs (a full count rejects, an
unfilled count increments with the old window start kept). -/
theorem C6_window_reset (ip : String) (c ws now : Nat) (store : RateLimitStore)
    (h : store ip = some ⟨c, ws⟩) :
    (ws + RATE_LIMIT_WINDOW_MS < now →
      isRateLimited now ip store = (false, storeSet store ip ⟨1, now⟩)) ∧
    (now ≤ ws + RATE_LIMIT_WINDOW_MS → c < MAX_SUBMISSIONS_PER_WINDOW →
      isRateLimited now ip store = (false, storeSet store ip ⟨c + 1, ws⟩)) ∧
    (now ≤ ws + RATE_LIMIT_WINDOW_MS → MAX_SUBMISSIONS_PER_WINDOW ≤ c →
      isRateLimited now ip store = (true, store)) := by
  exact ⟨fun hw => isRateLimited_of_expired h hw,
    fun hw hc => isRateLimited_of_within_lt h hw hc,
    fun hw hc => isRateLimited_of_within_ge h hw hc⟩

theorem C6_witness :
    isRateLimited (3600101) "1.2.3.4" (storeSet emptyStore "1.2.3.4" ⟨3, 100⟩) =
      (false, storeSet (storeSet emptyStore "1.2.3.4" ⟨3, 100⟩) "1.2.3.4" ⟨1, 3600101⟩) ∧
    isRateLimited (3600100) "1.2.3.4" (storeSet emptyStore "1.2.3.4" ⟨3, 100⟩) =
      (false, storeSet (storeSet emptyStore "1.2.3.4" ⟨3, 100⟩) "1.2.3.4" ⟨4, 100⟩) ∧
    isRateLimited (3600100) "1.2.3.4" (storeSet emptyStore "1.2.3.4" ⟨5, 100⟩) =
      (true, storeSet emptyStore "1.2.3.4" ⟨5, 100⟩) := by
  refine ⟨?_, ?_, ?_⟩
  · exact (C6_window_reset "1.2.3.4" 3 100 3600101 _ (by decide)).1 (by decide)
  · exact (C6_window_reset "1.2.3.4" 3 100 3600100 _ (by decide)).2.1 (by decide) (by decide)
  · exact (C6_window_reset "1.2.3.4" 5 100 3600100 _ (by decide)).2.2 (by decide) (by decide)

/-- C7 counterexample: a POST whose body cannot be parsed is answered with
status 500 and the generic unexpected-error message by the catch-all, not
with a 400-class field-specific response as the claim states. -/
theorem C7_counterexample :
    (handle ⟨"POST", none, none, none⟩ 0 emptyStore true).response =
      ⟨500, .err "An unexpected error occurred. Please try again.", jsonHeaders⟩ ∧
    (handle ⟨"POST", none, none, none⟩ 0 emptyStore true).response.status ≠ 400 := by
  exact ⟨rfl, by decide⟩

/-- C7 amended: for every POST that is not rate-limited and whose body cannot
be parsed as structured data, the handler returns status 500 with the generic
unexpected-error message (the parse failure lands in the catch-all); no
insert is attempted. -/
theorem C7_unparseable_body_500 (xff cfip : Option String)
    (now : Nat) (store : RateLimitStore) (insertOk : Bool)
    (hlim : (isRateLimited now (clientIP xff cfip) store).1 = false) :
    handle ⟨"POST", xff, cfip, none⟩ now store insertOk =
      ⟨⟨500, .err "An unexpected error occurred. Please try again.", jsonHeaders⟩,
       (isRateLimited now (clientIP xff cfip) store).2, none⟩ := by
  rw [handle_POST_notLimited _ _ _ _ _ _ hlim]
  rfl

theorem C7_witness :
    handle ⟨"POST", some "9.9.9.9", none, none⟩ 5 emptyStore true =
      ⟨⟨500, .err "An unexpected error occurred. Please try again.", jsonHeaders⟩,
       (isRateLimited 5 (clientIP (some "9.9.9.9") none) emptyStore).2, none⟩ := by
  exact C7_unparseable_body_500 (some "9.9.9.9") none 5 emptyStore true (by decide)

/-- C8 counterexample: an OPTIONS preflight request is answered with status
200 and the plain-text body "ok", which is neither of the two structured
shapes (`{error}` / `{success, message}`) the claim asserts for every
request. -/
theorem C8_counterexample :
    (handle ⟨"OPTIONS", none, none, none⟩ 0 emptyStore true).response.status = 200 ∧
    (handle ⟨"OPTIONS", none, none, none⟩ 0 emptyStore true).response.body =
      ResponseBody.text "ok" ∧
    isStructured (handle ⟨"OPTIONS", none, none, none⟩ 0 emptyStore true).response.body =
      false := by
  exact ⟨rfl, rfl, rfl⟩

/-- C8 amended: the handler is total (never crashes) and returns exactly one
response per request, with the cross-origin headers on every path; every
non-OPTIONS request gets a structured body — `{error}` with status
400/405/429/500 or `{success, message}` with status 200 — while the OPTIONS
preflight gets status 200 with the plain-text body "ok" and the bare CORS
headers. -/
theorem C8_every_path_structured (req : Request) (now : Nat)
    (store : RateLimitStore) (insertOk : Bool) :
    (∀ h ∈ corsHeaders, h ∈ (handle req now store insertOk).response.headers) ∧
    (req.method = "OPTIONS" →
      (handle req now store insertOk).response = ⟨200, .text "ok", corsHeaders⟩) ∧
    (req.method ≠ "OPTIONS" →
      claimedShape (handle req now store insertOk).response) := by
  obtain ⟨mth, xff, cfip, b⟩ := req
  by_cases hm : mth = "OPTIONS"
  · subst hm
    refine ⟨?_, fun _ => rfl, fun hne => absurd rfl hne⟩
    intro h hmem
    exact hmem
  · by_cases hp : mth = "POST"
    · subst hp
      rw [handle_POST]
      refine ⟨?_, fun habs => absurd habs hm, fun _ => ?_⟩
      · intro h hmem
        split
        · exact mem_jsonHeaders_of_mem_cors hmem
        · rw [show (⟨(processBody b insertOk).1, _, (processBody b insertOk).2⟩ :
              HandlerResult).response = (processBody b insertOk).1 from rfl,
            processBody_headers]
          exact mem_jsonHeaders_of_mem_cors hmem
      · split
        · exact Or.inl ⟨⟨_, rfl⟩, by simp⟩
        · exact processBody_claimedShape b insertOk
    · have hr : handle ⟨mth, xff, cfip, b⟩ now store insertOk =
          ⟨⟨405, .err "Method not allowed", jsonHeaders⟩, store, none⟩ := by
        rw [handle]
        rw [if_neg hm, if_pos hp]
      rw [hr]
      exact ⟨fun h hmem => mem_jsonHeaders_of_mem_cors hmem,
        fun habs => absurd habs hm,
        fun _ => Or.inl ⟨⟨_, rfl⟩, by simp⟩⟩

theorem C8_witness :
    claimedShape (handle ⟨"GET", none, none, none⟩ 0 emptyStore true).response ∧
    (handle ⟨"OPTIONS", none, none, some ⟨none, none, none⟩⟩ 7 emptyStore false).response =
      ⟨200, .text "ok", corsHeaders⟩ := by
  exact ⟨(C8_every_path_structured ⟨"GET", none, none, none⟩ 0 emptyStore true).2.2 (by decide),
    (C8_every_path_structured ⟨"OPTIONS", none, none, some ⟨none, none, none⟩⟩ 7 emptyStore
      false).2.1 rfl⟩

/-- C3: server-side validations run in the fixed order name → email → message
and only the first failure is reported, with status 400 and that validator's
own message: a failing name decides the whole response whatever the email and
message fields hold (they are never evaluated); a failing email (with passing
name) decides it whatever the message holds; a failing message (with passing
name and email) is reported last; and the three validators' message
inventories are pairwise disjoint (field-specific messages). -/
theorem C3_first_failure_reported
    (xff cfip : Option String) (now : Nat) (store : RateLimitStore) (insertOk : Bool)
    (hlim : (isRateLimited now (clientIP xff cfip) store).1 = false)
    (nm em ms : Option String) :
    ((validateName nm).valid = false →
      ((validateName nm).error.getD "") ∈ nameErrors ∧
      ∀ em2 ms2 : Option String,
        handle ⟨"POST", xff, cfip, some ⟨nm, em2, ms2⟩⟩ now store insertOk =
          ⟨⟨400, .err ((validateName nm).error.getD ""), jsonHeaders⟩,
           (isRateLimited now (clientIP xff cfip) store).2, none⟩) ∧
    ((validateName nm).valid = true → (validateEmail em).valid = false →
      ((validateEmail em).error.getD "") ∈ emailErrors ∧
      ∀ ms2 : Option String,
        handle ⟨"POST", xff, cfip, some ⟨nm, em, ms2⟩⟩ now store insertOk =
          ⟨⟨400, .err ((validateEmail em).error.getD ""), jsonHeaders⟩,
           (isRateLimited now (clientIP xff cfip) store).2, none⟩) ∧
    ((validateName nm).valid = true → (validateEmail em).valid = true →
      (validateMessage ms).valid = false →
      ((validateMessage ms).error.getD "") ∈ messageErrors ∧
      handle ⟨"POST", xff, cfip, some ⟨nm, em, ms⟩⟩ now store insertOk =
        ⟨⟨400, .err ((validateMessage ms).error.getD ""), jsonHeaders⟩,
         (isRateLimited now (clientIP xff cfip) store).2, none⟩) ∧
    (∀ s, s ∈ nameErrors → s ∉ emailErrors ∧ s ∉ messageErrors) ∧
    (∀ s, s ∈ emailErrors → s ∉ messageErrors) := by
  refine ⟨?_, ?_, ?_, ?_, ?_⟩
  · intro hv
    rcases validateName_cases nm with hc | ⟨s, hc, hmem⟩
    · rw [hc] at hv; simp at hv
    · have hgd : (validateName nm).error.getD "" = s := by simp [hc]
      rw [hgd]
      refine ⟨hmem, ?_⟩
      intro em2 ms2
      rw [handle_POST_notLimited _ _ _ _ _ _ hlim,
        processBody_nameFail insertOk (by rw [hc]) (by rw [hc])]
  · intro hnv hv
    rcases validateEmail_cases em with hc | ⟨s, hc, hmem⟩
    · rw [hc] at hv; simp at hv
    · have hgd : (validateEmail em).error.getD "" = s := by simp [hc]
      rw [hgd]
      refine ⟨hmem, ?_⟩
      intro ms2
      rw [handle_POST_notLimited _ _ _ _ _ _ hlim,
        processBody_emailFail insertOk hnv (by rw [hc]) (by rw [hc])]
  · intro hnv hev hv
    rcases validateMessage_cases ms with hc | ⟨s, hc, hmem⟩
    · rw [hc] at hv; simp at hv
    · have hgd : (validateMessage ms).error.getD "" = s := by simp [hc]
      rw [hgd]
      refine ⟨hmem, ?_⟩
      rw [handle_POST_notLimited _ _ _ _ _ _ hlim,
        processBody_messageFail insertOk hnv hev (by rw [hc]) (by rw [hc])]
  · intro s hs
    simp only [nameErrors, List.mem_cons, List.not_mem_nil, or_false] at hs
    rcases hs with rfl | rfl | rfl <;> exact ⟨by decide, by decide⟩
  · intro s hs
    simp only [emailErrors, List.mem_cons, List.not_mem_nil, or_false] at hs
    rcases hs with rfl | rfl | rfl <;> decide

theorem C3_witness :
    (validateName (some "A")).error.getD "" = "Name must be at least 2 characters" ∧
    handle ⟨"POST", some "1.2.3.4", none,
        some ⟨some "A", some "x@y.com", some "Hi"⟩⟩ 0 emptyStore true =
      ⟨⟨400, .err "Name must be at least 2 characters", jsonHeaders⟩,
       (isRateLimited 0 (clientIP (some "1.2.3.4") none) emptyStore).2, none⟩ ∧
    handle ⟨"POST", some "1.2.3.4", none,
        some ⟨some "A", none, some "a completely different message"⟩⟩ 0 emptyStore true =
      ⟨⟨400, .err "Name must be at least 2 characters", jsonHeaders⟩,
       (isRateLimited 0 (clientIP (some "1.2.3.4") none) emptyStore).2, none⟩ ∧
    "Name is required" ∉ emailErrors := by
  have hstr : (validateName (some "A")).error.getD "" =
      "Name must be at least 2 characters" := by decide
  have h := C3_first_failure_reported (some "1.2.3.4") none 0 emptyStore true
    (by decide) (some "A") (some "x@y.com") (some "Hi")
  have h1 := (h.1 (by decide)).2 (some "x@y.com") (some "Hi")
  have h2 := (h.1 (by decide)).2 none (some "a completely different message")
  exact ⟨hstr, hstr ▸ h1, hstr ▸ h2,
    (h.2.2.2.1 "Name is required" (by decide)).1⟩

/-- C4: a request whose name is missing, or whose trimmed name length is
below 2 or above 100 (whitespace-only included, its trimmed length being 0),
is rejected with status 400 and a name-specific error message, and the insert
is never attempted. -/
theorem C4_invalid_name_rejected
    (xff cfip : Option String) (now : Nat) (store : RateLimitStore) (insertOk : Bool)
    (hlim : (isRateLimited now (clientIP xff cfip) store).1 = false)
    (nm em ms : Option String)
    (hname : nm = none ∨
      ∃ n, nm = some n ∧ (jsLength (jsTrim n) < 2 ∨ 100 < jsLength (jsTrim n))) :
    (handle ⟨"POST", xff, cfip, some ⟨nm, em, ms⟩⟩ now store insertOk).response.status = 400 ∧
    (handle ⟨"POST", xff, cfip, some ⟨nm, em, ms⟩⟩ now store insertOk).response.body =
      .err ((validateName nm).error.getD "") ∧
    ((validateName nm).error.getD "") ∈ nameErrors ∧
    (handle ⟨"POST", xff, cfip, some ⟨nm, em, ms⟩⟩ now store insertOk).insertAttempt = none := by
  have hv : (validateName nm).valid = false := by
    rcases hname with rfl | ⟨n, rfl, hn⟩
    · rfl
    · exact validateName_invalid_of hn
  rcases validateName_cases nm with hc | ⟨s, hc, hmem⟩
  · rw [hc] at hv; simp at hv
  · have hgd : (validateName nm).error.getD "" = s := by simp [hc]
    rw [handle_POST_notLimited _ _ _ _ _ _ hlim,
      processBody_nameFail insertOk (by rw [hc]) (by rw [hc]), hgd]
    exact ⟨rfl, rfl, hmem, rfl⟩

theorem C4_witness :
    (handle ⟨"POST", some "1.2.3.4", none,
        some ⟨some "   ", some "x@y.com", some "A long enough message"⟩⟩
      0 emptyStore true).response.status = 400 ∧
    (handle ⟨"POST", some "1.2.3.4", none,
        some ⟨some "   ", some "x@y.com", some "A long enough message"⟩⟩
      0 emptyStore true).response.body = .err "Name is required" ∧
    (handle ⟨"POST", some "1.2.3.4", none,
        some ⟨some "   ", some "x@y.com", some "A long enough message"⟩⟩
      0 emptyStore true).insertAttempt = none := by
  have h := C4_invalid_name_rejected (some "1.2.3.4") none 0 emptyStore true (by decide)
    (some "   ") (some "x@y.com") (some "A long enough message")
    (Or.inr ⟨"   ", rfl, Or.inl (by decide)⟩)
  have hstr : (validateName (some "   ")).error.getD "" = "Name is required" := by decide
  exact ⟨h.1, hstr ▸ h.2.1, h.2.2.2⟩

/-- C5: the email validator accepts exactly the emails that, after trimming
and lowercasing, are non-empty, at most 255 characters, and of the shape
`local-part@domain.tld` (local-part one-or-more characters of
`[A-Za-z0-9._%+-]`, domain one-or-more of `[A-Za-z0-9.-]`, final label 2+
letters); every
rejected email gets an email-specific error message. -/
theorem C5_email_acceptance (e : String) :
    ((validateEmail (some e)).valid = true ↔
      (jsToLower (jsTrim e) ≠ "" ∧ jsLength (jsToLower (jsTrim e)) ≤ 255 ∧
        emailShape (jsToLower (jsTrim e)))) ∧
    ((validateEmail (some e)).valid = false →
      (validateEmail (some e)).error ≠ none ∧
      ((validateEmail (some e)).error.getD "") ∈ emailErrors) := by
  constructor
  · constructor
    · intro h
      by_cases h0 : jsLength (jsToLower (jsTrim e)) = 0
      · rw [validateEmail] at h; simp [h0] at h
      · by_cases h255 : 255 < jsLength (jsToLower (jsTrim e))
        · rw [validateEmail] at h; simp [h0, h255] at h
        · by_cases hre : emailRegexMatch (jsToLower (jsTrim e)) = true
          · refine ⟨?_, by omega, (emailRegexMatch_iff_emailShape _).mp hre⟩
            intro habs
            exact h0 (by rw [habs]; rfl)
          · have hfalse : emailRegexMatch (jsToLower (jsTrim e)) = false :=
              Bool.eq_false_iff.mpr hre
            rw [validateEmail] at h
            simp [h0, h255, hfalse] at h
    · rintro ⟨hne, h255, hshape⟩
      have hre : emailRegexMatch (jsToLower (jsTrim e)) = true :=
        (emailRegexMatch_iff_emailShape _).mpr hshape
      rw [validateEmail_valid_of hre h255]
  · intro hv
    rcases validateEmail_cases (some e) with hc | ⟨s, hc, hmem⟩
    · rw [hc] at hv; simp at hv
    · rw [hc]
      exact ⟨by simp, hmem⟩

theorem C5_witness :
    (validateEmail (some " A@B.COM ")).valid = true ∧
    (validateEmail (some "not-an-email")).valid = false ∧
    (validateEmail (some "not-an-email")).error.getD "" ∈ emailErrors := by
  refine ⟨?_, by decide, ((C5_email_acceptance "not-an-email").2 (by decide)).2⟩
  exact (C5_email_acceptance " A@B.COM ").1.mpr
    ⟨by decide, by decide,
     ⟨['a'], ['b'], ['c', 'o', 'm'], by decide, by decide, by decide, by decide,
      by decide, by decide, by decide⟩⟩

theorem processBody_nameFail_400 {b : ContactBody} (insertOk : Bool)
    (hn : (validateName b.name).valid = false) :
    (processBody (some b) insertOk).1.status = 400 := by
  rcases validateName_cases b.name with hc | ⟨s, hc, -⟩
  · rw [hc] at hn; simp at hn
  · rw [processBody_nameFail insertOk hn (by rw [hc])]

/-- C2: five submissions from one source address within one hour are all
accepted (status 200, store counting them up), and a sixth request from that
address within the same hour is answered 429 with the rate-limit message, the
store untouched, no insert attempted, and the response not depending on the
sixth request's body or on the insert oracle (no further processing). -/
theorem C2_sixth_submission_rate_limited
    (ip : String) (hip : clientIP (some ip) none = ip)
    (t1 t2 t3 t4 t5 t6 : Nat)
    (h2 : t2 ≤ t1 + RATE_LIMIT_WINDOW_MS) (h3 : t3 ≤ t1 + RATE_LIMIT_WINDOW_MS)
    (h4 : t4 ≤ t1 + RATE_LIMIT_WINDOW_MS) (h5 : t5 ≤ t1 + RATE_LIMIT_WINDOW_MS)
    (h6 : t6 ≤ t1 + RATE_LIMIT_WINDOW_MS)
    (store0 : RateLimitStore) (h0 : store0 ip = none)
    (b : ContactBody)
    (hn : (validateName b.name).valid = true)
    (he : (validateEmail b.email).valid = true)
    (hm : (validateMessage b.message).valid = true)
    (s1 s2 s3 s4 s5 : RateLimitStore)
    (hs1 : s1 = (handle ⟨"POST", some ip, none, some b⟩ t1 store0 true).store)
    (hs2 : s2 = (handle ⟨"POST", some ip, none, some b⟩ t2 s1 true).store)
    (hs3 : s3 = (handle ⟨"POST", some ip, none, some b⟩ t3 s2 true).store)
    (hs4 : s4 = (handle ⟨"POST", some ip, none, some b⟩ t4 s3 true).store)
    (hs5 : s5 = (handle ⟨"POST", some ip, none, some b⟩ t5 s4 true).store) :
    (handle ⟨"POST", some ip, none, some b⟩ t1 store0 true).response.status = 200 ∧
    (handle ⟨"POST", some ip, none, some b⟩ t2 s1 true).response.status = 200 ∧
    (handle ⟨"POST", some ip, none, some b⟩ t3 s2 true).response.status = 200 ∧
    (handle ⟨"POST", some ip, none, some b⟩ t4 s3 true).response.status = 200 ∧
    (handle ⟨"POST", some ip, none, some b⟩ t5 s4 true).response.status = 200 ∧
    ∀ (b6 : Option ContactBody) (ok6 : Bool),
      handle ⟨"POST", some ip, none, b6⟩ t6 s5 ok6 =
        ⟨⟨429, .err "Too many submissions. Please try again later.", jsonHeaders⟩,
         s5, none⟩ := by
  have hpr := processBody_success (b := b) hn he hm
  have e1 : isRateLimited t1 ip store0 = (false, storeSet store0 ip ⟨1, t1⟩) :=
    isRateLimited_of_none t1 h0
  have hs1' : s1 = storeSet store0 ip ⟨1, t1⟩ := by
    rw [hs1, handle_POST_store, hip, e1]
  have k1 : s1 ip = some ⟨1, t1⟩ := by rw [hs1']; exact storeSet_self _ _ _
  have e2 : isRateLimited t2 ip s1 = (false, storeSet s1 ip ⟨2, t1⟩) :=
    isRateLimited_of_within_lt k1 h2 (by decide)
  have hs2' : s2 = storeSet s1 ip ⟨2, t1⟩ := by
    rw [hs2, handle_POST_store, hip, e2]
  have k2 : s2 ip = some ⟨2, t1⟩ := by rw [hs2']; exact storeSet_self _ _ _
  have e3 : isRateLimited t3 ip s2 = (false, storeSet s2 ip ⟨3, t1⟩) :=
    isRateLimited_of_within_lt k2 h3 (by decide)
  have hs3' : s3 = storeSet s2 ip ⟨3, t1⟩ := by
    rw [hs3, handle_POST_store, hip, e3]
  have k3 : s3 ip = some ⟨3, t1⟩ := by rw [hs3']; exact storeSet_self _ _ _
  have e4 : isRateLimited t4 ip s3 = (false, storeSet s3 ip ⟨4, t1⟩) :=
    isRateLimited_of_within_lt k3 h4 (by decide)
  have hs4' : s4 = storeSet s3 ip ⟨4, t1⟩ := by
    rw [hs4, handle_POST_store, hip, e4]
  have k4 : s4 ip = some ⟨4, t1⟩ := by rw [hs4']; exact storeSet_self _ _ _
  have e5 : isRateLimited t5 ip s4 = (false, storeSet s4 ip ⟨5, t1⟩) :=
    isRateLimited_of_within_lt k4 h5 (by decide)
  have hs5' : s5 = storeSet s4 ip ⟨5, t1⟩ := by
    rw [hs5, handle_POST_store, hip, e5]
  have k5 : s5 ip = some ⟨5, t1⟩ := by rw [hs5']; exact storeSet_self _ _ _
  have e6 : isRateLimited t6 ip s5 = (true, s5) :=
    isRateLimited_of_within_ge k5 h6 (by decide)
  refine ⟨?_, ?_, ?_, ?_, ?_, ?_⟩
  · rw [handle_POST_notLimited _ _ _ _ _ _ (by rw [hip, e1]), hpr]
  · rw [handle_POST_notLimited _ _ _ _ _ _ (by rw [hip, e2]), hpr]
  · rw [handle_POST_notLimited _ _ _ _ _ _ (by rw [hip, e3]), hpr]
  · rw [handle_POST_notLimited _ _ _ _ _ _ (by rw [hip, e4]), hpr]
  · rw [handle_POST_notLimited _ _ _ _ _ _ (by rw [hip, e5]), hpr]
  · intro b6 ok6
    rw [handle_POST_limited _ _ _ _ _ _ (by rw [hip, e6]), hip, e6]

theorem C2_witness :
    (handle ⟨"POST", some "1.2.3.4", none,
        some ⟨some "Al", some "A@B.COM", some "Hello there!"⟩⟩ 0 emptyStore
        true).response.status = 200 ∧
    (handle ⟨"POST", some "1.2.3.4", none,
        some ⟨some "Al", some "A@B.COM", some "Hello there!"⟩⟩ 0
        (storeSet emptyStore "1.2.3.4" ⟨1, 0⟩) true).response.status = 200 ∧
    handle ⟨"POST", some "1.2.3.4", none,
        some ⟨some "Al", some "A@B.COM", some "Hello there!"⟩⟩ 3600000
        (storeSet (storeSet (storeSet (storeSet (storeSet emptyStore
          "1.2.3.4" ⟨1, 0⟩) "1.2.3.4" ⟨2, 0⟩) "1.2.3.4" ⟨3, 0⟩) "1.2.3.4" ⟨4, 0⟩)
          "1.2.3.4" ⟨5, 0⟩) true =
      ⟨⟨429, .err "Too many submissions. Please try again later.", jsonHeaders⟩,
       storeSet (storeSet (storeSet (storeSet (storeSet emptyStore
         "1.2.3.4" ⟨1, 0⟩) "1.2.3.4" ⟨2, 0⟩) "1.2.3.4" ⟨3, 0⟩) "1.2.3.4" ⟨4, 0⟩)
         "1.2.3.4" ⟨5, 0⟩, none⟩ := by
  have h := C2_sixth_submission_rate_limited "1.2.3.4" (by decide)
    0 0 0 0 0 3600000 (by decide) (by decide) (by decide) (by decide) (by decide)
    emptyStore rfl ⟨some "Al", some "A@B.COM", some "Hello there!"⟩
    (by decide) (by decide) (by decide)
    (storeSet emptyStore "1.2.3.4" ⟨1, 0⟩)
    (storeSet (storeSet emptyStore "1.2.3.4" ⟨1, 0⟩) "1.2.3.4" ⟨2, 0⟩)
    (storeSet (storeSet (storeSet emptyStore "1.2.3.4" ⟨1, 0⟩) "1.2.3.4" ⟨2, 0⟩)
      "1.2.3.4" ⟨3, 0⟩)
    (storeSet (storeSet (storeSet (storeSet emptyStore "1.2.3.4" ⟨1, 0⟩)
      "1.2.3.4" ⟨2, 0⟩) "1.2.3.4" ⟨3, 0⟩) "1.2.3.4" ⟨4, 0⟩)
    (storeSet (storeSet (storeSet (storeSet (storeSet emptyStore "1.2.3.4" ⟨1, 0⟩)
      "1.2.3.4" ⟨2, 0⟩) "1.2.3.4" ⟨3, 0⟩) "1.2.3.4" ⟨4, 0⟩) "1.2.3.4" ⟨5, 0⟩)
    rfl rfl rfl rfl rfl
  exact ⟨h.1, h.2.1,
    h.2.2.2.2.2 (some ⟨some "Al", some "A@B.COM", some "Hello there!"⟩) true⟩

/-- C9: every POST that passes the rate-limit check consumes one unit of the
address's budget even when validation then rejects it: five name-rejected
submissions (status 400 each) from one address within an hour cause a sixth,
fully valid submission with a working insert from that address in the same
hour to be answered 429 with no insert attempted. -/
theorem C9_rejected_submissions_consume_budget
    (ip : String) (hip : clientIP (some ip) none = ip)
    (t1 t2 t3 t4 t5 t6 : Nat)
    (h2 : t2 ≤ t1 + RATE_LIMIT_WINDOW_MS) (h3 : t3 ≤ t1 + RATE_LIMIT_WINDOW_MS)
    (h4 : t4 ≤ t1 + RATE_LIMIT_WINDOW_MS) (h5 : t5 ≤ t1 + RATE_LIMIT_WINDOW_MS)
    (h6 : t6 ≤ t1 + RATE_LIMIT_WINDOW_MS)
    (store0 : RateLimitStore) (h0 : store0 ip = none)
    (b1 b2 b3 b4 b5 : ContactBody) (o1 o2 o3 o4 o5 : Bool)
    (f1 : (validateName b1.name).valid = false)
    (f2 : (validateName b2.name).valid = false)
    (f3 : (validateName b3.name).valid = false)
    (f4 : (validateName b4.name).valid = false)
    (f5 : (validateName b5.name).valid = false)
    (b6 : ContactBody)
    (hn6 : (validateName b6.name).valid = true)
    (he6 : (validateEmail b6.email).valid = true)
    (hm6 : (validateMessage b6.message).valid = true)
    (s1 s2 s3 s4 s5 : RateLimitStore)
    (hs1 : s1 = (handle ⟨"POST", some ip, none, some b1⟩ t1 store0 o1).store)
    (hs2 : s2 = (handle ⟨"POST", some ip, none, some b2⟩ t2 s1 o2).store)
    (hs3 : s3 = (handle ⟨"POST", some ip, none, some b3⟩ t3 s2 o3).store)
    (hs4 : s4 = (handle ⟨"POST", some ip, none, some b4⟩ t4 s3 o4).store)
    (hs5 : s5 = (handle ⟨"POST", some ip, none, some b5⟩ t5 s4 o5).store) :
    (handle ⟨"POST", some ip, none, some b1⟩ t1 store0 o1).response.status = 400 ∧
    (handle ⟨"POST", some ip, none, some b2⟩ t2 s1 o2).response.status = 400 ∧
    (handle ⟨"POST", some ip, none, some b3⟩ t3 s2 o3).response.status = 400 ∧
    (handle ⟨"POST", some ip, none, some b4⟩ t4 s3 o4).response.status = 400 ∧
    (handle ⟨"POST", some ip, none, some b5⟩ t5 s4 o5).response.status = 400 ∧
    handle ⟨"POST", some ip, none, some b6⟩ t6 s5 true =
      ⟨⟨429, .err "Too many submissions. Please try again later.", jsonHeaders⟩,
       s5, none⟩ := by
  have e1 : isRateLimited t1 ip store0 = (false, storeSet store0 ip ⟨1, t1⟩) :=
    isRateLimited_of_none t1 h0
  have hs1' : s1 = storeSet store0 ip ⟨1, t1⟩ := by
    rw [hs1, handle_POST_store, hip, e1]
  have k1 : s1 ip = some ⟨1, t1⟩ := by rw [hs1']; exact storeSet_self _ _ _
  have e2 : isRateLimited t2 ip s1 = (false, storeSet s1 ip ⟨2, t1⟩) :=
    isRateLimited_of_within_lt k1 h2 (by decide)
  have hs2' : s2 = storeSet s1 ip ⟨2, t1⟩ := by
    rw [hs2, handle_POST_store, hip, e2]
  have k2 : s2 ip = some ⟨2, t1⟩ := by rw [hs2']; exact storeSet_self _ _ _
  have e3 : isRateLimited t3 ip s2 = (false, storeSet s2 ip ⟨3, t1⟩) :=
    isRateLimited_of_within_lt k2 h3 (by decide)
  have hs3' : s3 = storeSet s2 ip ⟨3, t1⟩ := by
    rw [hs3, handle_POST_store, hip, e3]
  have k3 : s3 ip = some ⟨3, t1⟩ := by rw [hs3']; exact storeSet_self _ _ _
  have e4 : isRateLimited t4 ip s3 = (false, storeSet s3 ip ⟨4, t1⟩) :=
    isRateLimited_of_within_lt k3 h4 (by decide)
  have hs4' : s4 = storeSet s3 ip ⟨4, t1⟩ := by
    rw [hs4, handle_POST_store, hip, e4]
  have k4 : s4 ip = some ⟨4, t1⟩ := by rw [hs4']; exact storeSet_self _ _ _
  have e5 : isRateLimited t5 ip s4 = (false, storeSet s4 ip ⟨5, t1⟩) :=
    isRateLimited_of_within_lt k4 h5 (by decide)
  have hs5' : s5 = storeSet s4 ip ⟨5, t1⟩ := by
    rw [hs5, handle_POST_store, hip, e5]
  have k5 : s5 ip = some ⟨5, t1⟩ := by rw [hs5']; exact storeSet_self _ _ _
  have e6 : isRateLimited t6 ip s5 = (true, s5) :=
    isRateLimited_of_within_ge k5 h6 (by decide)
  refine ⟨?_, ?_, ?_, ?_, ?_, ?_⟩
  · rw [handle_POST_notLimited _ _ _ _ _ _ (by rw [hip, e1])]
    exact processBody_nameFail_400 o1 f1
  · rw [handle_POST_notLimited _ _ _ _ _ _ (by rw [hip, e2])]
    exact processBody_nameFail_400 o2 f2
  · rw [handle_POST_notLimited _ _ _ _ _ _ (by rw [hip, e3])]
    exact processBody_nameFail_400 o3 f3
  · rw [handle_POST_notLimited _ _ _ _ _ _ (by rw [hip, e4])]
    exact processBody_nameFail_400 o4 f4
  · rw [handle_POST_notLimited _ _ _ _ _ _ (by rw [hip, e5])]
    exact processBody_nameFail_400 o5 f5
  · rw [handle_POST_limited _ _ _ _ _ _ (by rw [hip, e6]), hip, e6]

theorem C9_witness :
    (handle ⟨"POST", some "1.2.3.4", none,
        some ⟨some "A", some "x@y.com", some "Hello there!"⟩⟩ 0 emptyStore
        true).response.status = 400 ∧
    handle ⟨"POST", some "1.2.3.4", none,
        some ⟨some "Al", some "A@B.COM", some "Hello there!"⟩⟩ 60000
        (storeSet (storeSet (storeSet (storeSet (storeSet emptyStore
          "1.2.3.4" ⟨1, 0⟩) "1.2.3.4" ⟨2, 0⟩) "1.2.3.4" ⟨3, 0⟩) "1.2.3.4" ⟨4, 0⟩)
          "1.2.3.4" ⟨5, 0⟩) true =
      ⟨⟨429, .err "Too many submissions. Please try again later.", jsonHeaders⟩,
       storeSet (storeSet (storeSet (storeSet (storeSet emptyStore
         "1.2.3.4" ⟨1, 0⟩) "1.2.3.4" ⟨2, 0⟩) "1.2.3.4" ⟨3, 0⟩) "1.2.3.4" ⟨4, 0⟩)
         "1.2.3.4" ⟨5, 0⟩, none⟩ := by
  have h := C9_rejected_submissions_consume_budget "1.2.3.4" (by decide)
    0 0 0 0 0 60000 (by decide) (by decide) (by decide) (by decide) (by decide)
    emptyStore rfl
    ⟨some "A", some "x@y.com", some "Hello there!"⟩
    ⟨some "A", some "x@y.com", some "Hello there!"⟩
    ⟨some "A", some "x@y.com", some "Hello there!"⟩
    ⟨some "A", some "x@y.com", some "Hello there!"⟩
    ⟨some "A", some "x@y.com", some "Hello there!"⟩
    true true true true true
    (by decide) (by decide) (by decide) (by decide) (by decide)
    ⟨some "Al", some "A@B.COM", some "Hello there!"⟩
    (by decide) (by decide) (by decide)
    (storeSet emptyStore "1.2.3.4" ⟨1, 0⟩)
    (storeSet (storeSet emptyStore "1.2.3.4" ⟨1, 0⟩) "1.2.3.4" ⟨2, 0⟩)
    (storeSet (storeSet (storeSet emptyStore "1.2.3.4" ⟨1, 0⟩) "1.2.3.4" ⟨2, 0⟩)
      "1.2.3.4" ⟨3, 0⟩)
    (storeSet (storeSet (storeSet (storeSet emptyStore "1.2.3.4" ⟨1, 0⟩)
      "1.2.3.4" ⟨2, 0⟩) "1.2.3.4" ⟨3, 0⟩) "1.2.3.4" ⟨4, 0⟩)
    (storeSet (storeSet (storeSet (storeSet (storeSet emptyStore "1.2.3.4" ⟨1, 0⟩)
      "1.2.3.4" ⟨2, 0⟩) "1.2.3.4" ⟨3, 0⟩) "1.2.3.4" ⟨4, 0⟩) "1.2.3.4" ⟨5, 0⟩)
    rfl rfl rfl rfl rfl
  exact ⟨h.1, h.2.2.2.2.2⟩

/-- C10: a request with neither forwarding header is attributed to the
sentinel source address "unknown", and all such requests share one
rate-limit bucket: whatever their bodies and insert outcomes (so, whatever
distinct real clients sent them), five of them within one hour pass the
rate-limit check (their status is never 429), and a sixth within the same
hour is answered 429. -/
theorem C10_headerless_share_unknown_bucket
    (t1 t2 t3 t4 t5 t6 : Nat)
    (h2 : t2 ≤ t1 + RATE_LIMIT_WINDOW_MS) (h3 : t3 ≤ t1 + RATE_LIMIT_WINDOW_MS)
    (h4 : t4 ≤ t1 + RATE_LIMIT_WINDOW_MS) (h5 : t5 ≤ t1 + RATE_LIMIT_WINDOW_MS)
    (h6 : t6 ≤ t1 + RATE_LIMIT_WINDOW_MS)
    (store0 : RateLimitStore) (h0 : store0 "unknown" = none)
    (b1 b2 b3 b4 b5 b6 : Option ContactBody) (o1 o2 o3 o4 o5 o6 : Bool)
    (s1 s2 s3 s4 s5 : RateLimitStore)
    (hs1 : s1 = (handle ⟨"POST", none, none, b1⟩ t1 store0 o1).store)
    (hs2 : s2 = (handle ⟨"POST", none, none, b2⟩ t2 s1 o2).store)
    (hs3 : s3 = (handle ⟨"POST", none, none, b3⟩ t3 s2 o3).store)
    (hs4 : s4 = (handle ⟨"POST", none, none, b4⟩ t4 s3 o4).store)
    (hs5 : s5 = (handle ⟨"POST", none, none, b5⟩ t5 s4 o5).store) :
    clientIP none none = "unknown" ∧
    (handle ⟨"POST", none, none, b1⟩ t1 store0 o1).response.status ≠ 429 ∧
    (handle ⟨"POST", none, none, b2⟩ t2 s1 o2).response.status ≠ 429 ∧
    (handle ⟨"POST", none, none, b3⟩ t3 s2 o3).response.status ≠ 429 ∧
    (handle ⟨"POST", none, none, b4⟩ t4 s3 o4).response.status ≠ 429 ∧
    (handle ⟨"POST", none, none, b5⟩ t5 s4 o5).response.status ≠ 429 ∧
    handle ⟨"POST", none, none, b6⟩ t6 s5 o6 =
      ⟨⟨429, .err "Too many submissions. Please try again later.", jsonHeaders⟩,
       s5, none⟩ := by
  have hu : clientIP none none = "unknown" := rfl
  have e1 : isRateLimited t1 "unknown" store0 =
      (false, storeSet store0 "unknown" ⟨1, t1⟩) := isRateLimited_of_none t1 h0
  have hs1' : s1 = storeSet store0 "unknown" ⟨1, t1⟩ := by
    rw [hs1, handle_POST_store, hu, e1]
  have k1 : s1 "unknown" = some ⟨1, t1⟩ := by rw [hs1']; exact storeSet_self _ _ _
  have e2 : isRateLimited t2 "unknown" s1 = (false, storeSet s1 "unknown" ⟨2, t1⟩) :=
    isRateLimited_of_within_lt k1 h2 (by decide)
  have hs2' : s2 = storeSet s1 "unknown" ⟨2, t1⟩ := by
    rw [hs2, handle_POST_store, hu, e2]
  have k2 : s2 "unknown" = some ⟨2, t1⟩ := by rw [hs2']; exact storeSet_self _ _ _
  have e3 : isRateLimited t3 "unknown" s2 = (false, storeSet s2 "unknown" ⟨3, t1⟩) :=
    isRateLimited_of_within_lt k2 h3 (by decide)
  have hs3' : s3 = storeSet s2 "unknown" ⟨3, t1⟩ := by
    rw [hs3, handle_POST_store, hu, e3]
  have k3 : s3 "unknown" = some ⟨3, t1⟩ := by rw [hs3']; exact storeSet_self _ _ _
  have e4 : isRateLimited t4 "unknown" s3 = (false, storeSet s3 "unknown" ⟨4, t1⟩) :=
    isRateLimited_of_within_lt k3 h4 (by decide)
  have hs4' : s4 = storeSet s3 "unknown" ⟨4, t1⟩ := by
    rw [hs4, handle_POST_store, hu, e4]
  have k4 : s4 "unknown" = some ⟨4, t1⟩ := by rw [hs4']; exact storeSet_self _ _ _
  have e5 : isRateLimited t5 "unknown" s4 = (false, storeSet s4 "unknown" ⟨5, t1⟩) :=
    isRateLimited_of_within_lt k4 h5 (by decide)
  have hs5' : s5 = storeSet s4 "unknown" ⟨5, t1⟩ := by
    rw [hs5, handle_POST_store, hu, e5]
  have k5 : s5 "unknown" = some ⟨5, t1⟩ := by rw [hs5']; exact storeSet_self _ _ _
  have e6 : isRateLimited t6 "unknown" s5 = (true, s5) :=
    isRateLimited_of_within_ge k5 h6 (by decide)
  refine ⟨hu, ?_, ?_, ?_, ?_, ?_, ?_⟩
  · rw [handle_POST_notLimited _ _ _ _ _ _ (by rw [hu, e1])]
    exact processBody_status_ne_429 b1 o1
  · rw [handle_POST_notLimited _ _ _ _ _ _ (by rw [hu, e2])]
    exact processBody_status_ne_429 b2 o2
  · rw [handle_POST_notLimited _ _ _ _ _ _ (by rw [hu, e3])]
    exact processBody_status_ne_429 b3 o3
  · rw [handle_POST_notLimited _ _ _ _ _ _ (by rw [hu, e4])]
    exact processBody_status_ne_429 b4 o4
  · rw [handle_POST_notLimited _ _ _ _ _ _ (by rw [hu, e5])]
    exact processBody_status_ne_429 b5 o5
  · rw [handle_POST_limited _ _ _ _ _ _ (by rw [hu, e6]), hu, e6]

theorem C10_witness :
    clientIP none none = "unknown" ∧
    (handle ⟨"POST", none, none, some ⟨some "Al", some "A@B.COM", some "Hello there!"⟩⟩
      0 emptyStore true).response.status ≠ 429 ∧
    handle ⟨"POST", none, none, some ⟨some "Ze", some "z@z.org", some "Another message."⟩⟩
        3000
        (storeSet (storeSet (storeSet (storeSet (storeSet emptyStore
          "unknown" ⟨1, 0⟩) "unknown" ⟨2, 0⟩) "unknown" ⟨3, 0⟩) "unknown" ⟨4, 0⟩)
          "unknown" ⟨5, 0⟩) true =
      ⟨⟨429, .err "Too many submissions. Please try again later.", jsonHeaders⟩,
       storeSet (storeSet (storeSet (storeSet (storeSet emptyStore
         "unknown" ⟨1, 0⟩) "unknown" ⟨2, 0⟩) "unknown" ⟨3, 0⟩) "unknown" ⟨4, 0⟩)
         "unknown" ⟨5, 0⟩, none⟩ := by
  have h := C10_headerless_share_unknown_bucket
    0 0 0 0 0 3000 (by decide) (by decide) (by decide) (by decide) (by decide)
    emptyStore rfl
    (some ⟨some "Al", some "A@B.COM", some "Hello there!"⟩)
    (some ⟨some "Bo", some "b@b.net", some "Second client here."⟩)
    none
    (some ⟨some "Cy", none, none⟩)
    (some ⟨some "Di", some "d@d.io", some "Fifth client message."⟩)
    (some ⟨some "Ze", some "z@z.org", some "Another message."⟩)
    true true false true true true
    (storeSet emptyStore "unknown" ⟨1, 0⟩)
    (storeSet (storeSet emptyStore "unknown" ⟨1, 0⟩) "unknown" ⟨2, 0⟩)
    (storeSet (storeSet (storeSet emptyStore "unknown" ⟨1, 0⟩) "unknown" ⟨2, 0⟩)
      "unknown" ⟨3, 0⟩)
    (storeSet (storeSet (storeSet (storeSet emptyStore "unknown" ⟨1, 0⟩)
      "unknown" ⟨2, 0⟩) "unknown" ⟨3, 0⟩) "unknown" ⟨4, 0⟩)
    (storeSet (storeSet (storeSet (storeSet (storeSet emptyStore "unknown" ⟨1, 0⟩)
      "unknown" ⟨2, 0⟩) "unknown" ⟨3, 0⟩) "unknown" ⟨4, 0⟩) "unknown" ⟨5, 0⟩)
    rfl rfl rfl rfl rfl
  exact ⟨h.1, h.2.1, h.2.2.2.2.2.2⟩

end SubmitContact
